import Mathlib

/-!
Shallow embedding of `src/atomic_ref_cell.rs` from the `cell-extras` crate.

The cell is a pair of an atomic `usize` borrow register and a protected
value.  `usize` is modelled as `Nat` with explicit wraparound modulo `2^64`
exactly where the source's arithmetic can wrap (`fetch_sub` in
`BorrowGuard::drop`).  Stateful methods are embedded in state-passing style:
each operation takes the cell and returns its result together with the cell
afterwards.  Panics (`expect`) are embedded as `Except String`.
-/

namespace CellExtras

/-- `usize` modulus: `2 ^ 64` (written as a literal). -/
def USIZE_MOD : Nat := 18446744073709551616

/-- `const UNUSED: usize = 0;` -/
def UNUSED : Nat := 0

/-- `const WRITING: usize = !0;` — the all-ones sentinel, `usize::MAX`. -/
def WRITING : Nat := USIZE_MOD - 1

/-- `pub struct AtomicRefCell<T> { borrow: AtomicUsize, value: UnsafeCell<T> }` -/
structure AtomicRefCell (α : Type) where
  borrow : Nat
  value : α
deriving DecidableEq

/-- `pub struct AtomicRef<'a, T>` — a read view; `deref` returns `value`.
The `BorrowGuard` it carries is a pointer to the cell's register, so in the
state-passing embedding the guard's effect is the `releaseRead` operation
applied to the cell when the view is dropped. -/
structure AtomicRef (α : Type) where
  value : α
deriving DecidableEq

/-- `pub struct AtomicRefMut<'a, T>` — a write view; `deref`/`deref_mut`
expose `value`, which aliases the cell's protected value. -/
structure AtomicRefMut (α : Type) where
  value : α
deriving DecidableEq

/-- `AtomicRefCell::new`. -/
def new {α : Type} (value : α) : AtomicRefCell α :=
  { borrow := UNUSED, value := value }

/-- `AtomicRefCell::try_borrow`, sequential execution (the CAS is
uncontended, so the loop body runs once): load the register; if it is
`WRITING` return `None` leaving the cell untouched; otherwise the
compare-and-swap applies, moving the register from `v` to `v + 1`, and a
read view of the protected value is returned. -/
def tryBorrow {α : Type} (c : AtomicRefCell α) :
    Option (AtomicRef α) × AtomicRefCell α :=
  if c.borrow = WRITING then (none, c)
  else (some { value := c.value }, { c with borrow := c.borrow + 1 })

/-- `AtomicRefCell::try_borrow_mut`: a single
`compare_and_swap(UNUSED, WRITING)`; it applies iff the register is exactly
`UNUSED`, and on mismatch the register is not written. -/
def tryBorrowMut {α : Type} (c : AtomicRefCell α) :
    Option (AtomicRefMut α) × AtomicRefCell α :=
  if c.borrow = UNUSED then
    (some { value := c.value }, { c with borrow := WRITING })
  else (none, c)

/-- `AtomicRefCell::borrow` = `self.try_borrow().expect("Already mutably borrowed")`.
The panic is embedded as `Except.error` carrying the `expect` message. -/
def borrow {α : Type} (c : AtomicRefCell α) :
    Except String (AtomicRef α × AtomicRefCell α) :=
  match tryBorrow c with
  | (some r, c') => Except.ok (r, c')
  | (none, _) => Except.error ("Already mutably borrowed")

/-- `AtomicRefCell::borrow_mut` = `self.try_borrow_mut().expect("Already immutably borrowed")`. -/
def borrowMut {α : Type} (c : AtomicRefCell α) :
    Except String (AtomicRefMut α × AtomicRefCell α) :=
  match tryBorrowMut c with
  | (some m, c') => Except.ok (m, c')
  | (none, _) => Except.error ("Already immutably borrowed")

/-- The effect of `fetch_sub(1, SeqCst)` on a register value: a wrapping
decrement, taking `0` to `usize::MAX`.  On register values below `2 ^ 64`
(the values a `usize` can hold) this is exactly subtraction of one modulo
`2 ^ 64`; see `wrapPred_eq_mod`. -/
def wrapPred : Nat → Nat
  | 0 => WRITING
  | k + 1 => k

/-- `BorrowGuard::drop`: `fetch_sub(1, SeqCst)` — a wrapping decrement of
the register (at `0` it would wrap to `usize::MAX`). -/
def releaseRead {α : Type} (c : AtomicRefCell α) : AtomicRefCell α :=
  { c with borrow := wrapPred c.borrow }

/-- The `debug_assert!(last != WRITING && last != UNUSED)` in
`BorrowGuard::drop`, stated on the pre-decrement register value `last`. -/
def readReleaseAssertOk {α : Type} (c : AtomicRefCell α) : Prop :=
  c.borrow ≠ WRITING ∧ c.borrow ≠ UNUSED

/-- `MutBorrowGuard::drop`: `swap(UNUSED, SeqCst)` — the register is reset
to `0`. -/
def releaseWrite {α : Type} (c : AtomicRefCell α) : AtomicRefCell α :=
  { c with borrow := UNUSED }

/-- The `debug_assert!(last == WRITING)` in `MutBorrowGuard::drop`, stated
on the pre-swap register value `last`. -/
def writeReleaseAssertOk {α : Type} (c : AtomicRefCell α) : Prop :=
  c.borrow = WRITING

/-- Writing through a write view (`*view = v` via `DerefMut::deref_mut`):
the view's reference aliases the cell's protected value, so the write lands
in the cell. -/
def writeThrough {α : Type} (c : AtomicRefCell α) (v : α) : AtomicRefCell α :=
  { c with value := v }

/-- `AtomicRef::map`: builds the new view from `f` applied to the borrowed
value and moves the guard (`borrow: orig.borrow`) into it; the register is
not touched. -/
def AtomicRef.map {α β : Type} (orig : AtomicRef α) (f : α → β) : AtomicRef β :=
  { value := f orig.value }

/-- `AtomicRefMut::map`: same shape as `AtomicRef::map` for write views. -/
def AtomicRefMut.map {α β : Type} (orig : AtomicRefMut α) (f : α → β) :
    AtomicRefMut β :=
  { value := f orig.value }

/-- `impl Debug for AtomicRefCell`: try an internal read borrow; on success
format the protected value, on failure substitute the placeholder.  The
internal `AtomicRef` is dropped at the end of formatting, which runs
`releaseRead` on the cell. -/
def fmtCell {α : Type} (reprFn : α → String) (c : AtomicRefCell α) :
    String × AtomicRefCell α :=
  match tryBorrow c with
  | (some r, c') =>
      ("AtomicRefCell \x7b value: " ++ reprFn r.value ++ " \x7d", releaseRead c')
  | (none, _) => ("AtomicRefCell \x7b value: <borrowed> \x7d", c)

/-! ### The concurrent `try_borrow` loop

`try_borrow`'s loop is embedded with the interference other threads cause
made explicit: the `script` lists the register values observed by the
successive `load`s after the preceding iteration's compare-and-swap failed
(another thread changed the register between the load and the CAS).  An
exhausted script means the current iteration's CAS meets no interference
and applies. -/

/-- Result of one execution of the `try_borrow` loop from a load observing
`reg`: `none` when the loop returns `None`, `some r` when the CAS applies
leaving the register at `r`. -/
def tryBorrowRun : Nat → List Nat → Option Nat
  | reg, [] => if reg = WRITING then none else some (reg + 1)
  | reg, v :: rest => if reg = WRITING then none else tryBorrowRun v rest

/-- The register value observed by the load of the deciding iteration of
the `try_borrow` loop (the iteration that returns `None` or whose CAS
applies). -/
def tryBorrowFinal : Nat → List Nat → Nat
  | reg, [] => reg
  | reg, v :: rest => if reg = WRITING then reg else tryBorrowFinal v rest

/-! ### Whole-cell operation sequences

For the reachable-state invariant, exactly the register transitions the
code can perform: a `try_borrow` grant, a `try_borrow_mut` grant (each
failing silently when its guard refuses), and the two guard drops (which
exist only while a corresponding view is live). -/

/-- The cell operations, together with the live views they create or
destroy. -/
inductive Op
  | tryRead
  | tryWrite
  | dropRead
  | dropWrite
deriving DecidableEq

/-- A cell's register together with the number of live read and write
views. -/
structure SysState where
  register : Nat
  liveReads : Nat
  liveWrites : Nat
deriving DecidableEq

/-- The state of a freshly constructed cell: register `UNUSED`, no views. -/
def initState : SysState :=
  { register := UNUSED, liveReads := 0, liveWrites := 0 }

/-- One cell operation.  `tryRead` and `tryWrite` follow `try_borrow` and
`try_borrow_mut`; a failed attempt changes nothing.  `dropRead` and
`dropWrite` run the guard drops and are enabled only while a view of that
kind is live. -/
def step (s : SysState) : Op → SysState
  | Op.tryRead =>
      if s.register = WRITING then s
      else { register := s.register + 1, liveReads := s.liveReads + 1,
             liveWrites := s.liveWrites }
  | Op.tryWrite =>
      if s.register = UNUSED then
        { register := WRITING, liveReads := s.liveReads,
          liveWrites := s.liveWrites + 1 }
      else s
  | Op.dropRead =>
      if s.liveReads = 0 then s
      else { register := wrapPred s.register,
             liveReads := s.liveReads - 1, liveWrites := s.liveWrites }
  | Op.dropWrite =>
      if s.liveWrites = 0 then s
      else { register := UNUSED, liveReads := s.liveReads,
             liveWrites := s.liveWrites - 1 }

/-- Run a sequence of cell operations from a fresh cell. -/
def run (ops : List Op) : SysState :=
  ops.foldl step initState

/-! ## Theorems -/

/-- Helper for C2: the loop returns `None` iff the deciding load observed
`WRITING`, and otherwise the CAS applies to the value of that load. -/
theorem tryBorrowRun_eq (reg : Nat) (script : List Nat) :
    (tryBorrowRun reg script = none ↔ tryBorrowFinal reg script = WRITING) ∧
    (tryBorrowFinal reg script ≠ WRITING →
      tryBorrowRun reg script = some (tryBorrowFinal reg script + 1)) := by
  induction script generalizing reg with
  | nil =>
      constructor
      · by_cases h : reg = WRITING <;> simp [tryBorrowRun, tryBorrowFinal, h]
      · intro h
        simp only [tryBorrowFinal] at h
        simp [tryBorrowRun, tryBorrowFinal, h]
  | cons v rest ih =>
      by_cases h : reg = WRITING
      · constructor
        · simp [tryBorrowRun, tryBorrowFinal, h]
        · intro hne
          simp [tryBorrowFinal, h] at hne
      · constructor
        · simpa [tryBorrowRun, tryBorrowFinal, h] using (ih v).1
        · intro hne
          simp only [tryBorrowFinal, if_neg h] at hne
          simpa [tryBorrowRun, tryBorrowFinal, h] using (ih v).2 hne

/-- Claim C2: `try_borrow` is a load–check–compare-and-swap cycle that,
when the CAS fails, retries the whole cycle (re-loading and re-checking);
it returns `None` exactly when the deciding load observed the `WRITING`
sentinel, and on success it moves the register from the observed value `v`
to `v + 1`; at the cell level a success returns a read view of the
protected value with the register incremented. -/
theorem tryBorrow_protocol {α : Type} (reg : Nat) (script : List Nat)
    (c : AtomicRefCell α) :
    (tryBorrowRun reg script = none ↔ tryBorrowFinal reg script = WRITING) ∧
    (tryBorrowRun reg script ≠ none →
      tryBorrowFinal reg script ≠ WRITING ∧
      tryBorrowRun reg script = some (tryBorrowFinal reg script + 1)) ∧
    (c.borrow = WRITING → tryBorrow c = (none, c)) ∧
    (c.borrow ≠ WRITING →
      tryBorrow c =
        (some { value := c.value }, { c with borrow := c.borrow + 1 })) := by
  have hrs := tryBorrowRun_eq reg script
  refine ⟨hrs.1, ?_, fun h => by simp [tryBorrow, h], fun h => by simp [tryBorrow, h]⟩
  intro hne
  have hf : tryBorrowFinal reg script ≠ WRITING := fun hw => hne (hrs.1.mpr hw)
  exact ⟨hf, hrs.2 hf⟩

/-- Witness for C2: the uncontended loop from register `0` succeeds moving
the register to `1`, and on a fresh cell `try_borrow` returns a view of the
value with the register at `1`. -/
theorem tryBorrow_protocol_witness :
    tryBorrowRun 0 [] = some 1 ∧
    tryBorrow (new (5 : Nat)) =
      (some { value := 5 }, { borrow := 1, value := 5 }) := by
  have h := tryBorrow_protocol 0 [] (new (5 : Nat))
  exact ⟨(h.2.1 (by decide)).2, h.2.2.2 (by decide)⟩

/-- Claim C3: `try_borrow_mut` is a single CAS from exactly `UNUSED` to
`WRITING`: it succeeds — returning a write view with the register set to
the sentinel — iff the register was precisely `0`, and any nonzero register
makes it return `None` at once with the cell untouched. -/
theorem tryBorrowMut_single_cas {α : Type} (c : AtomicRefCell α) :
    (c.borrow = UNUSED →
      tryBorrowMut c =
        (some { value := c.value }, { c with borrow := WRITING })) ∧
    (c.borrow ≠ UNUSED → tryBorrowMut c = (none, c)) ∧
    ((tryBorrowMut c).1.isSome ↔ c.borrow = UNUSED) := by
  refine ⟨fun h => by simp [tryBorrowMut, h], fun h => by simp [tryBorrowMut, h], ?_⟩
  by_cases h : c.borrow = UNUSED <;> simp [tryBorrowMut, h]

/-- Witness for C3 on a fresh cell and on a cell with three active reads. -/
theorem tryBorrowMut_single_cas_witness :
    tryBorrowMut (new (7 : Nat)) =
      (some { value := 7 }, { borrow := WRITING, value := 7 }) ∧
    tryBorrowMut (⟨3, (7 : Nat)⟩ : AtomicRefCell Nat) = (none, ⟨3, 7⟩) := by
  exact ⟨(tryBorrowMut_single_cas (new (7 : Nat))).1 (by decide),
         (tryBorrowMut_single_cas (⟨3, (7 : Nat)⟩ : AtomicRefCell Nat)).2.1 (by decide)⟩

/-- Claim C8: a `try_borrow` or `try_borrow_mut` that returns `None` leaves
the cell completely unchanged — same register value, same protected
value. -/
theorem failed_try_leaves_cell_unchanged {α : Type} (c : AtomicRefCell α) :
    ((tryBorrow c).1 = none → (tryBorrow c).2 = c) ∧
    ((tryBorrowMut c).1 = none → (tryBorrowMut c).2 = c) := by
  constructor
  · by_cases h : c.borrow = WRITING <;> simp [tryBorrow, h]
  · by_cases h : c.borrow = UNUSED <;> simp [tryBorrowMut, h]

/-- Witness for C8 at a write-borrowed cell and a read-borrowed cell. -/
theorem failed_try_leaves_cell_unchanged_witness :
    (tryBorrow (⟨WRITING, (5 : Nat)⟩ : AtomicRefCell Nat)).2 = ⟨WRITING, 5⟩ ∧
    (tryBorrowMut (⟨2, (5 : Nat)⟩ : AtomicRefCell Nat)).2 = ⟨2, 5⟩ := by
  exact ⟨(failed_try_leaves_cell_unchanged _).1 (by decide),
         (failed_try_leaves_cell_unchanged _).2 (by decide)⟩

/-- Helper for C4: the wrapping decrement agrees with subtraction of one
modulo `2 ^ 64` on representable register values. -/
theorem wrapPred_eq_mod (n : Nat) (h : n < USIZE_MOD) :
    wrapPred n = (n + (USIZE_MOD - 1)) % USIZE_MOD := by
  have hM : USIZE_MOD = 18446744073709551616 := rfl
  match n with
  | 0 => decide
  | k + 1 =>
      show k = (k + 1 + (USIZE_MOD - 1)) % USIZE_MOD
      rw [hM] at h ⊢
      omega

/-- Helper for C4: away from `0` the wrapping decrement is plain
subtraction of one. -/
theorem wrapPred_of_ne_zero (n : Nat) (h : n ≠ 0) : wrapPred n = n - 1 := by
  match n with
  | 0 => exact absurd rfl h
  | k + 1 => rfl

/-- Claim C4: dropping a read view decrements the register by exactly one
(a wrapping `fetch_sub(1)`, stated both as the modular formula and as plain
subtraction in the legal states) and dropping a write view resets it to
`0`, touching the protected value in neither case; after a write release
the cell is immediately eligible for a new exclusive negotiation; and the
debug assertions flag exactly the forbidden pre-states — `0` or the
sentinel for a read release, anything but the sentinel for a write
release. -/
theorem release_semantics {α : Type} (c : AtomicRefCell α)
    (hlt : c.borrow < USIZE_MOD) :
    (releaseRead c).borrow = (c.borrow + (USIZE_MOD - 1)) % USIZE_MOD ∧
    (readReleaseAssertOk c →
      (releaseRead c).borrow = c.borrow - 1 ∧ (releaseRead c).value = c.value) ∧
    ((releaseWrite c).borrow = UNUSED ∧ (releaseWrite c).value = c.value) ∧
    (tryBorrowMut (releaseWrite c)).1 = some { value := c.value } ∧
    (¬ readReleaseAssertOk c ↔ (c.borrow = UNUSED ∨ c.borrow = WRITING)) ∧
    (¬ writeReleaseAssertOk c ↔ c.borrow ≠ WRITING) := by
  refine ⟨wrapPred_eq_mod c.borrow hlt, ?_, ⟨rfl, rfl⟩,
    by simp [tryBorrowMut, releaseWrite], ?_, Iff.rfl⟩
  · rintro ⟨hw, hu⟩
    exact ⟨wrapPred_of_ne_zero c.borrow hu, rfl⟩
  · constructor
    · intro h
      by_cases h0 : c.borrow = UNUSED
      · exact Or.inl h0
      · by_cases hw : c.borrow = WRITING
        · exact Or.inr hw
        · exact absurd ⟨hw, h0⟩ h
    · rintro (h | h) ⟨hw, hu⟩
      · exact hu h
      · exact hw h

/-- Witness for C4: releasing one of two reads leaves the register at `1`,
and releasing a write resets it to `0` and lets `try_borrow_mut` succeed. -/
theorem release_semantics_witness :
    (releaseRead (⟨2, (9 : Nat)⟩ : AtomicRefCell Nat)).borrow = 1 ∧
    (releaseWrite (⟨WRITING, (9 : Nat)⟩ : AtomicRefCell Nat)).borrow = UNUSED ∧
    (tryBorrowMut (releaseWrite (⟨WRITING, (9 : Nat)⟩ : AtomicRefCell Nat))).1 =
      some { value := 9 } := by
  have h := release_semantics (⟨WRITING, (9 : Nat)⟩ : AtomicRefCell Nat) (by decide)
  have h2 := release_semantics (⟨2, (9 : Nat)⟩ : AtomicRefCell Nat) (by decide)
  exact ⟨(h2.2.1 ⟨by decide, by decide⟩).1, h.2.2.1.1, h.2.2.2.1⟩

/-- Claim C5: `borrow` and `borrow_mut` run exactly the negotiation of
their `try_` counterparts: they return a view precisely when the `try_`
variant returns `Some` — the same view and the same register transition —
and panic precisely when it returns `None`. -/
theorem borrow_refines_tryBorrow {α : Type} (c : AtomicRefCell α) :
    (∀ (r : AtomicRef α) (c' : AtomicRefCell α),
      borrow c = Except.ok (r, c') ↔ tryBorrow c = (some r, c')) ∧
    ((tryBorrow c).1 = none ↔
      borrow c = Except.error ("Already mutably borrowed")) ∧
    (∀ (w : AtomicRefMut α) (c' : AtomicRefCell α),
      borrowMut c = Except.ok (w, c') ↔ tryBorrowMut c = (some w, c')) ∧
    ((tryBorrowMut c).1 = none ↔
      borrowMut c = Except.error ("Already immutably borrowed")) := by
  have hUW : UNUSED ≠ WRITING := by decide
  have hWU : WRITING ≠ UNUSED := by decide
  by_cases h : c.borrow = WRITING
  · by_cases h0 : c.borrow = UNUSED
    · exact absurd (h0.symm.trans h) hUW
    · simp [borrow, borrowMut, tryBorrow, tryBorrowMut, h, h0, hUW, hWU]
  · by_cases h0 : c.borrow = UNUSED <;>
      simp [borrow, borrowMut, tryBorrow, tryBorrowMut, h, h0, hUW, hWU]

/-- Witness for C5: on a fresh cell `borrow` returns the `try_borrow`
view, and on a write-borrowed cell `borrow_mut` panics. -/
theorem borrow_refines_tryBorrow_witness :
    borrow (new (4 : Nat)) = Except.ok ({ value := 4 }, ⟨1, 4⟩) ∧
    borrowMut (⟨WRITING, (4 : Nat)⟩ : AtomicRefCell Nat) =
      Except.error ("Already immutably borrowed") := by
  exact ⟨((borrow_refines_tryBorrow (new (4 : Nat))).1 _ _).mpr (by decide),
         ((borrow_refines_tryBorrow _).2.2.2).mp (by decide)⟩

/-- Claim C6: writing `V` through a write view, releasing it, then taking
a read view observes exactly `V`. -/
theorem write_release_read_roundtrip {α : Type} (c : AtomicRefCell α) (V : α)
    (h : c.borrow = UNUSED) :
    tryBorrowMut c = (some { value := c.value }, { c with borrow := WRITING }) ∧
    (tryBorrow (releaseWrite (writeThrough { c with borrow := WRITING } V))).1 =
      some { value := V } := by
  have hne : UNUSED ≠ WRITING := by decide
  exact ⟨by simp [tryBorrowMut, h],
         by simp [tryBorrow, releaseWrite, writeThrough, hne]⟩

/-- Witness for C6: the spec's scenario — a cell holding `5`, overwritten
with `42` through a write view, reads back `42`. -/
theorem write_release_read_roundtrip_witness :
    tryBorrowMut (new (5 : Nat)) =
      (some { value := 5 }, { borrow := WRITING, value := 5 }) ∧
    (tryBorrow (releaseWrite
        (writeThrough (⟨WRITING, (5 : Nat)⟩ : AtomicRefCell Nat) 42))).1 =
      some { value := 42 } :=
  write_release_read_roundtrip (new (5 : Nat)) 42 (by decide)

/-- Claim C7: `map` on either view kind cannot fail and performs no
register operation — it is a pure function of the view, the register is not
among its inputs — producing a view whose dereference is `f` of the
borrowed value; the release responsibility carried over from the original
borrow still fires exactly once and restores the register to its pre-borrow
value. -/
theorem map_transfers_guard {α β : Type} (c : AtomicRefCell α) (f : α → β)
    (h : c.borrow ≠ WRITING) :
    tryBorrow c = (some { value := c.value }, { c with borrow := c.borrow + 1 }) ∧
    AtomicRef.map { value := c.value } f = { value := f c.value } ∧
    (releaseRead { c with borrow := c.borrow + 1 }).borrow = c.borrow ∧
    (releaseRead { c with borrow := c.borrow + 1 }).value = c.value ∧
    ∀ (m : AtomicRefMut α), AtomicRefMut.map m f = { value := f m.value } :=
  ⟨by simp [tryBorrow, h], rfl, rfl, rfl, fun m => rfl⟩

/-- Witness for C7 on a pair-valued cell projected to its first field. -/
theorem map_transfers_guard_witness :
    tryBorrow (new ((5 : Nat), (8 : Nat))) =
      (some { value := (5, 8) }, { borrow := 1, value := (5, 8) }) ∧
    AtomicRef.map { value := ((5 : Nat), (8 : Nat)) } Prod.fst = { value := 5 } ∧
    (releaseRead (⟨1, ((5 : Nat), (8 : Nat))⟩ : AtomicRefCell (Nat × Nat))).borrow = 0 ∧
    (releaseRead (⟨1, ((5 : Nat), (8 : Nat))⟩ : AtomicRefCell (Nat × Nat))).value = (5, 8) ∧
    ∀ (m : AtomicRefMut (Nat × Nat)),
      AtomicRefMut.map m Prod.fst = { value := m.value.1 } :=
  map_transfers_guard (new ((5 : Nat), (8 : Nat))) Prod.fst (by decide)

/-- Claim C9: a failing `borrow` panics with the message naming the active
mutable borrow — and it fails precisely when the register holds the write
sentinel — while a failing `borrow_mut` panics with the message naming the
outstanding borrows — and it fails precisely when any borrow is
outstanding; the two situations carry distinct fixed messages. -/
theorem panic_messages {α : Type} (c : AtomicRefCell α) :
    (c.borrow = WRITING → borrow c = Except.error ("Already mutably borrowed")) ∧
    ((tryBorrow c).1 = none ↔ c.borrow = WRITING) ∧
    (c.borrow ≠ UNUSED → borrowMut c = Except.error ("Already immutably borrowed")) ∧
    ((tryBorrowMut c).1 = none ↔ c.borrow ≠ UNUSED) ∧
    ("Already mutably borrowed" : String) ≠ "Already immutably borrowed" := by
  refine ⟨fun h => by simp [borrow, tryBorrow, h], ?_,
          fun h => by simp [borrowMut, tryBorrowMut, h], ?_, by decide⟩
  · by_cases h : c.borrow = WRITING <;> simp [tryBorrow, h]
  · by_cases h : c.borrow = UNUSED <;> simp [tryBorrowMut, h]

/-- Witness for C9: the two panic messages at a write-borrowed cell and a
read-borrowed cell. -/
theorem panic_messages_witness :
    borrow (⟨WRITING, (1 : Nat)⟩ : AtomicRefCell Nat) =
      Except.error ("Already mutably borrowed") ∧
    borrowMut (⟨1, (1 : Nat)⟩ : AtomicRefCell Nat) =
      Except.error ("Already immutably borrowed") := by
  exact ⟨(panic_messages _).1 (by decide), (panic_messages _).2.2.1 (by decide)⟩

/-- Claim C10: debug-formatting never fails because of borrow state: it
formats the protected value through an internal read borrow, substitutes
the `<borrowed>` placeholder whenever a write borrow is active, and the
internal borrow is released by the end of formatting, leaving the cell
exactly as it was found. -/
theorem fmt_best_effort {α : Type} (reprFn : α → String) (c : AtomicRefCell α) :
    (fmtCell reprFn c).2 = c ∧
    (c.borrow = WRITING →
      (fmtCell reprFn c).1 = "AtomicRefCell \x7b value: <borrowed> \x7d") ∧
    (c.borrow ≠ WRITING →
      (fmtCell reprFn c).1 =
        "AtomicRefCell \x7b value: " ++ reprFn c.value ++ " \x7d") := by
  by_cases h : c.borrow = WRITING
  · refine ⟨?_, fun _ => ?_, fun hn => absurd h hn⟩ <;>
      simp [fmtCell, tryBorrow, h]
  · refine ⟨?_, fun hw => absurd hw h, fun _ => ?_⟩ <;>
      simp [fmtCell, tryBorrow, releaseRead, wrapPred, h]

/-- Witness for C10 on an unborrowed cell and a write-borrowed cell. -/
theorem fmt_best_effort_witness :
    (fmtCell toString (⟨0, (5 : Nat)⟩ : AtomicRefCell Nat)).2 = ⟨0, 5⟩ ∧
    (fmtCell toString (⟨WRITING, (5 : Nat)⟩ : AtomicRefCell Nat)).1 =
      "AtomicRefCell \x7b value: <borrowed> \x7d" ∧
    (fmtCell toString (⟨0, (5 : Nat)⟩ : AtomicRefCell Nat)).1 =
      "AtomicRefCell \x7b value: " ++ toString (5 : Nat) ++ " \x7d" :=
  ⟨(fmt_best_effort toString _).1, (fmt_best_effort toString _).2.1 (by decide),
   (fmt_best_effort toString _).2.2 (by decide)⟩

/-- Helper for C1: `n ≤ WRITING` uncontended successful `try_borrow`
grants from a fresh cell leave the register and the live-read count both at
`n`, with no write view. -/
theorem run_replicate_tryRead :
    ∀ n : Nat, n ≤ WRITING →
      run (List.replicate n Op.tryRead) =
        { register := n, liveReads := n, liveWrites := 0 } := by
  intro n
  induction n with
  | zero => intro _; rfl
  | succ k ih =>
      intro hn
      have hk : k ≤ WRITING := Nat.le_of_succ_le hn
      have hne : k ≠ WRITING := by omega
      rw [List.replicate_succ']
      unfold run at ih ⊢
      rw [List.foldl_append, ih hk]
      simp [step, hne]

/-- Claim C1 (failing evaluation): the register does not always correspond
to the live views.  After `2 ^ 64 - 2` read grants the register is
`2 ^ 64 - 2`; one further `try_borrow` succeeds — its CAS moves the
register from `WRITING - 1` to `WRITING` — leaving the register at the
write sentinel with `2 ^ 64 - 1` live read views and no write view, so a
read grant has moved the register into the writing zone.  (Any read-guard
drop from this state would also fail the `debug_assert` in
`BorrowGuard::drop`.) -/
theorem read_grants_reach_writing_sentinel :
    (run (List.replicate (WRITING - 1) Op.tryRead)).register = WRITING - 1 ∧
    step (run (List.replicate (WRITING - 1) Op.tryRead)) Op.tryRead =
      run (List.replicate WRITING Op.tryRead) ∧
    (run (List.replicate WRITING Op.tryRead)).register = WRITING ∧
    (run (List.replicate WRITING Op.tryRead)).liveWrites = 0 ∧
    (run (List.replicate WRITING Op.tryRead)).liveReads = WRITING := by
  have hpos : 0 < WRITING := by decide
  have h1 := run_replicate_tryRead (WRITING - 1) (by omega)
  have h2 := run_replicate_tryRead WRITING (le_refl WRITING)
  have hne : WRITING - 1 ≠ WRITING := by omega
  have hsu : WRITING - 1 + 1 = WRITING := by omega
  rw [h1, h2]
  refine ⟨rfl, ?_, rfl, rfl, rfl⟩
  simp [step, hne, hsu]

end CellExtras
